import Mathlib

/-!
Shallow embedding of the YouTube-to-Instagram agent
(src/main.py, src/agent/analytics.py, src/agent/instagram_poster.py,
src/agent/scheduler.py) and proofs about its publish pipeline,
ledger/analytics queries, publish retry behaviour and scheduler time parsing.

Modelling conventions:
  * datetimes are wall-clock instants carrying a seconds counter; the
    Python attribute .hour is ts / 3600 % 24;
  * the SQLite posts table is a list of Post records in insertion order;
    SQL ORDER BY on a single column is modelled as a stable sort, ties
    staying in table (insertion) order;
  * Python floats for engagement_rate are modelled as rationals;
  * fallible collaborator calls return Option.
-/

/-- A wall-clock instant (datetime.now() and friends). -/
structure Dt where
  ts : Nat
  deriving DecidableEq

/-- Python datetime .hour attribute. -/
def Dt.hour (d : Dt) : Nat := d.ts / 3600 % 24

/-- Row of the posts table (class Post in src/agent/analytics.py). -/
structure Post where
  video_id : String
  instagram_media_id : String
  instagram_code : String
  instagram_url : String
  youtube_title : String
  youtube_url : String
  caption : String
  hashtags : List String
  category : Option String
  posted_at : Dt
  likes : Nat
  comments : Nat
  views : Nat
  engagement_rate : ℚ
  last_updated : Dt
  deriving DecidableEq

/-- The post_data dict passed to Analytics.track_post by main.run_once. -/
structure PostData where
  video_id : String
  instagram_media_id : String
  instagram_code : String
  instagram_url : String
  youtube_title : String
  youtube_url : String
  caption : String
  hashtags : List String
  category : Option String
  deriving DecidableEq

/-- The metrics dict handed to Analytics.update_post_metrics; the Python
code reads each key with dict.get and keeps the old value when a key is
absent, hence Option fields. -/
structure Metrics where
  likes : Option Nat
  comments : Option Nat
  views : Option Nat
  deriving DecidableEq

/-- Analytics.track_post: inserts a fresh row (metrics zeroed, timestamps
now); the UNIQUE constraint on video_id makes a duplicate insert fail and
roll back, returning False and leaving the table unchanged. -/
def track_post (ledger : List Post) (pd : PostData) (now : Dt) : List Post × Bool :=
  if ledger.any (fun p => p.video_id == pd.video_id) then (ledger, false)
  else
    (ledger ++ [{ video_id := pd.video_id,
                  instagram_media_id := pd.instagram_media_id,
                  instagram_code := pd.instagram_code,
                  instagram_url := pd.instagram_url,
                  youtube_title := pd.youtube_title,
                  youtube_url := pd.youtube_url,
                  caption := pd.caption,
                  hashtags := pd.hashtags,
                  category := pd.category,
                  posted_at := now,
                  likes := 0,
                  comments := 0,
                  views := 0,
                  engagement_rate := 0,
                  last_updated := now }], true)

/-- Analytics.get_post: first row whose video_id matches, else None. -/
def get_post (ledger : List Post) (vid : String) : Option Post :=
  ledger.find? (fun p => p.video_id == vid)

/-- The in-place mutation update_post_metrics performs on the found row:
each metric falls back to the old value when its key is absent, and
engagement_rate is recomputed only under the guard if post.views > 0. -/
def updateMetricsRec (p : Post) (m : Metrics) (now : Dt) : Post :=
  let likes := m.likes.getD p.likes
  let comments := m.comments.getD p.comments
  let views := m.views.getD p.views
  let er := if 0 < views then ((likes : ℚ) + (comments : ℚ)) / (views : ℚ) * 100
            else p.engagement_rate
  { p with likes := likes, comments := comments, views := views,
           engagement_rate := er, last_updated := now }

/-- Analytics.update_post_metrics: update the first row matching video_id;
returns the new table and True, or the unchanged table and False when no
row matches. -/
def update_post_metrics : List Post → String → Metrics → Dt → List Post × Bool
  | [], _, _, _ => ([], false)
  | p :: ps, vid, m, now =>
    if p.video_id == vid then (updateMetricsRec p m now :: ps, true)
    else
      let r := update_post_metrics ps vid m now
      (p :: r.1, r.2)

/-- Insert x into a descending-sorted list, after every strictly greater
key and before equal keys that were inserted from further down the input:
used to model a stable descending sort (Python sorted with reverse=True,
and SQL ORDER BY DESC with ties left in table order). -/
def insDesc (key : α → ℚ) (x : α) : List α → List α
  | [] => [x]
  | y :: ys => if key x < key y then y :: insDesc key x ys else x :: y :: ys

/-- Stable sort, descending by key; equal keys keep input order. -/
def sortByDesc (key : α → ℚ) : List α → List α
  | [] => []
  | x :: xs => insDesc key x (sortByDesc key xs)

/-- Analytics.get_best_performing_posts: ORDER BY engagement_rate DESC
LIMIT n over the posts table; no secondary sort key, so ties are modelled
in table (insertion) order. -/
def get_best_performing_posts (ledger : List Post) (limit : Nat) : List Post :=
  (sortByDesc (fun p => p.engagement_rate) ledger).take limit

/-- Return value of Analytics.get_statistics; the Python dict of the
empty-table branch carries only the first five keys, so the per-post
averages are Option and none exactly when their keys are absent. -/
structure Stats where
  total_posts : Nat
  total_likes : Nat
  total_comments : Nat
  total_views : Nat
  avg_engagement_rate : ℚ
  avg_likes_per_post : Option ℚ
  avg_comments_per_post : Option ℚ
  avg_views_per_post : Option ℚ
  deriving DecidableEq

/-- Analytics.get_statistics. -/
def get_statistics (ledger : List Post) : Stats :=
  if ledger.isEmpty then ⟨0, 0, 0, 0, 0, none, none, none⟩
  else
    let n : ℚ := (ledger.length : ℚ)
    let tl := (ledger.map (fun p => p.likes)).sum
    let tc := (ledger.map (fun p => p.comments)).sum
    let tv := (ledger.map (fun p => p.views)).sum
    let te := (ledger.map (fun p => p.engagement_rate)).sum
    ⟨ledger.length, tl, tc, tv, te / n,
      some ((tl : ℚ) / n), some ((tc : ℚ) / n), some ((tv : ℚ) / n)⟩

/-- One step of the hour_engagement dict construction in
get_best_posting_times: append this engagement rate to its hour bucket,
buckets kept in first-appearance order (Python dict insertion order). -/
def addRate (h : Nat) (r : ℚ) : List (Nat × List ℚ) → List (Nat × List ℚ)
  | [] => [(h, [r])]
  | (h0, rs) :: rest =>
    if h0 == h then (h0, rs ++ [r]) :: rest else (h0, rs) :: addRate h r rest

/-- The hour_engagement dict of get_best_posting_times. -/
def hourGroups (posts : List Post) : List (Nat × List ℚ) :=
  posts.foldl (fun acc p => addRate p.posted_at.hour p.engagement_rate acc) []

/-- The hour_avg dict of get_best_posting_times: mean rate per hour. -/
def hourAvgs (posts : List Post) : List (Nat × ℚ) :=
  (hourGroups posts).map (fun g => (g.1, g.2.sum / (g.2.length : ℚ)))

/-- Python f-string formatting of an hour as HH:00. -/
def fmtHour (h : Nat) : String :=
  (if h < 10 then "0" ++ toString h else toString h) ++ ":00"

/-- Analytics.get_best_posting_times; minSample is the configuration value
analytics.optimization.min_posts_for_optimization (default 10). The code
keeps only rows with engagement_rate > 0, bails out below the sample
threshold, averages per hour, sorts descending and returns the top THREE
hours formatted as strings. -/
def get_best_posting_times (ledger : List Post) (minSample : Nat) : List String :=
  let qual := ledger.filter (fun p => decide (0 < p.engagement_rate))
  if qual.length < minSample then []
  else ((sortByDesc Prod.snd (hourAvgs qual)).take 3).map (fun x => fmtHour x.1)

/-- What InstagramPoster.post_reel / post_video build from the returned
media object: the id, code and url exposed to run_once. -/
structure PostInfo where
  media_id : String
  code : String
  url : String
  deriving DecidableEq

/-- Behaviour of one clip_upload / video_upload call: success with a media
object, the LoginRequired exception, or any other exception. -/
inductive PubOutcome
  | ok (info : PostInfo)
  | loginRequired
  | failed
  deriving DecidableEq

/-- Observable outcome of a post_reel / post_video invocation: the value
returned, the number of re-authentication login() calls made from the
LoginRequired handler, and the number of retried upload calls. -/
structure AttemptOut where
  result : Option PostInfo
  logins : Nat
  retries : Nat
  deriving DecidableEq

/-- The recursive body shared by post_reel and post_video: the upload is
attempted; on LoginRequired the client is dropped, login() is called and on
success the whole method re-invokes itself (unbounded recursion in the
source); on login failure or any other exception it returns None. The
scripts list the successive upload outcomes and re-login results. -/
def postAttempts : List PubOutcome → List Bool → AttemptOut
  | [], _ => ⟨none, 0, 0⟩
  | PubOutcome.ok i :: _, _ => ⟨some i, 0, 0⟩
  | PubOutcome.failed :: _, _ => ⟨none, 0, 0⟩
  | PubOutcome.loginRequired :: rest, logins =>
    match logins with
    | [] => ⟨none, 1, 0⟩
    | b :: ls =>
      if b then
        let r := postAttempts rest ls
        ⟨r.result, r.logins + 1, r.retries + 1⟩
      else ⟨none, 1, 0⟩

/-- InstagramPoster.post_reel (post_video is line-for-line the same apart
from the upload endpoint and url shape): an initial login happens when no
client is attached yet and its failure returns None before any upload. -/
def post_reel (clientReady : Bool) (attempts : List PubOutcome)
    (loginScript : List Bool) : AttemptOut :=
  if clientReady then postAttempts attempts loginScript
  else
    match loginScript with
    | [] => ⟨none, 0, 0⟩
    | b :: ls => if b then postAttempts attempts ls else ⟨none, 0, 0⟩

/-- A video dict as consumed by run_once (id, title, url keys). -/
structure Video where
  id : String
  title : String
  url : String
  deriving DecidableEq

/-- Return value of CaptionGenerator.generate_caption; that method always
returns (it falls back to a template internally), hence no Option. -/
structure CaptionData where
  caption : String
  hashtags : List String
  full_caption : String
  deriving DecidableEq

/-- The collaborators one run_once cycle calls, with the configuration
value content.category; fallible calls return Option (the Python methods
return None on failure, and a raised exception is caught by run_once's
blanket handler with the same observable effect). -/
structure Env where
  videos : List Video
  download : Video → Option String
  process : String → String → Option String
  genCaption : Video → CaptionData
  post : String → String → Option PostInfo
  category : Option String

/-- YouTubeToInstagramAgent._get_unposted_video: first video of the ranked
list that has no ledger record. -/
def get_unposted_video (ledger : List Post) : List Video → Option Video
  | [] => none
  | v :: vs =>
    if (get_post ledger v.id).isNone then some v else get_unposted_video ledger vs

/-- Observable outcome of one run_once cycle: the returned boolean, the
posts table afterwards, and whether Analytics.track_post was called. -/
structure RunOut where
  success : Bool
  ledger : List Post
  tracked : Bool
  deriving DecidableEq

/-- The post_data dict built at step 6 of run_once. -/
def mkPostData (v : Video) (info : PostInfo) (cd : CaptionData)
    (category : Option String) : PostData :=
  ⟨v.id, info.media_id, info.code, info.url, v.title, v.url,
   cd.caption, cd.hashtags, category⟩

/-- YouTubeToInstagramAgent.run_once: search, select the first unposted
video, download, process, caption, (in test mode stop here with True),
publish, and only then track the post; every failed stage returns False
without touching the ledger. -/
def run_once (env : Env) (ledger : List Post) (testMode : Bool) (now : Dt) : RunOut :=
  if env.videos.isEmpty then ⟨false, ledger, false⟩
  else
    match get_unposted_video ledger env.videos with
    | none => ⟨false, ledger, false⟩
    | some video =>
      match env.download video with
      | none => ⟨false, ledger, false⟩
      | some video_path =>
        match env.process video_path video.id with
        | none => ⟨false, ledger, false⟩
        | some edited_path =>
          let cd := env.genCaption video
          if testMode then ⟨true, ledger, false⟩
          else
            match env.post edited_path cd.full_caption with
            | none => ⟨false, ledger, false⟩
            | some info =>
              let tr := track_post ledger (mkPostData video info cd env.category) now
              ⟨true, tr.1, true⟩

/-- Observer for the publish stage of a cycle: the confirmed post info the
publish call of this cycle returned, or none when an earlier stage failed,
test mode skipped publishing, or the publish call itself returned None. -/
def cycle_publish (env : Env) (ledger : List Post) (testMode : Bool) : Option PostInfo :=
  if env.videos.isEmpty then none
  else
    match get_unposted_video ledger env.videos with
    | none => none
    | some video =>
      match env.download video with
      | none => none
      | some video_path =>
        match env.process video_path video.id with
        | none => none
        | some edited_path =>
          if testMode then none
          else env.post edited_path (env.genCaption video).full_caption

/-- The single-run exit path of main(): sys.exit(0 if success else 1). -/
def main_exit_code (env : Env) (ledger : List Post) (testMode : Bool) (now : Dt) : Nat :=
  if (run_once env ledger testMode now).success then 0 else 1

/-- Split a character list on the colon character, mirroring the Python
str.split(':') used by Scheduler._parse_time. -/
def splitOnColon : List Char → List (List Char)
  | [] => [[]]
  | c :: cs =>
    match splitOnColon cs with
    | [] => [[c]]
    | p :: ps => if c = ':' then [] :: p :: ps else (c :: p) :: ps

/-- Digits-only reading of a character list. -/
def natOfDigits? (l : List Char) : Option Nat :=
  if l.isEmpty then none
  else if l.all Char.isDigit then
    some (l.foldl (fun a c => a * 10 + (c.toNat - 48)) 0)
  else none

/-- Python int(str): surrounding whitespace is stripped, an optional sign
precedes the digits, anything else raises ValueError (modelled as none). -/
def pyIntOfChars? (l : List Char) : Option Int :=
  let t := ((l.dropWhile Char.isWhitespace).reverse.dropWhile Char.isWhitespace).reverse
  match t with
  | '-' :: ds => (natOfDigits? ds).map (fun n => -(n : Int))
  | '+' :: ds => (natOfDigits? ds).map (fun n => (n : Int))
  | ds => (natOfDigits? ds).map (fun n => (n : Int))

/-- The body of Scheduler._parse_time that can raise: unpack the split of
the string on the colon into exactly two parts and convert both with
int(); none models the raised exception. -/
def parseTimeParts (s : String) : Option (Int × Int) :=
  match splitOnColon s.toList with
  | [h, m] =>
    match pyIntOfChars? h, pyIntOfChars? m with
    | some a, some b => some (a, b)
    | _, _ => none
  | _ => none

/-- Scheduler._parse_time: on any parsing exception the handler returns
the default pair (19, 0) (7 PM). -/
def parse_time (s : String) : Int × Int :=
  (parseTimeParts s).getD (19, 0)

/-- A registered APScheduler job as created by Scheduler.schedule_posts:
its id string and its cron trigger's hour and minute. -/
structure Job where
  id : String
  hour : Int
  minute : Int
  deriving DecidableEq

/-- BackgroundScheduler.add_job with replace_existing=True: a job with the
same id is replaced in place, otherwise the job is appended. -/
def add_job (jobs : List Job) (j : Job) : List Job :=
  if jobs.any (fun o => o.id == j.id) then
    jobs.map (fun o => if o.id == j.id then j else o)
  else jobs ++ [j]

/-- Scheduler.schedule_posts: for each configured time string, parse it
and register a daily cron job named daily_post_{hour}_{minute} (the
twice_daily branch registers the fixed morning and evening jobs instead;
any other frequency registers nothing). -/
def schedule_posts (frequency : String) (post_times : List String)
    (jobs0 : List Job) : List Job :=
  post_times.foldl (fun js s =>
    let hm := parse_time s
    if frequency == "daily" then
      add_job js ⟨"daily_post_" ++ toString hm.1 ++ "_" ++ toString hm.2, hm.1, hm.2⟩
    else if frequency == "twice_daily" then
      add_job (add_job js ⟨"morning_post", 9, 0⟩) ⟨"evening_post", 19, 0⟩
    else js) jobs0

/-! Helper lemmas about the embedded operations. -/

theorem get_unposted_video_eq_find (ledger : List Post) (videos : List Video) :
    get_unposted_video ledger videos = videos.find? (fun v => (get_post ledger v.id).isNone) := by
  induction videos with
  | nil => rfl
  | cons v vs ih =>
    unfold get_unposted_video
    rw [List.find?]
    cases h : (get_post ledger v.id).isNone <;> simp [h, ih]

theorem run_once_tracked_iff (env : Env) (ledger : List Post) (testMode : Bool) (now : Dt) :
    (run_once env ledger testMode now).tracked = true ↔
      (cycle_publish env ledger testMode).isSome = true := by
  unfold run_once cycle_publish
  cases h1 : env.videos.isEmpty <;> simp only [h1, Bool.false_eq_true, if_false, if_true]
  · cases h2 : get_unposted_video ledger env.videos <;> simp only []
    · simp
    · rename_i video
      cases h3 : env.download video <;> simp only []
      · simp
      · rename_i vp
        cases h4 : env.process vp video.id <;> simp only []
        · simp
        · rename_i ep
          cases h5 : testMode <;> simp only [Bool.false_eq_true, if_false, if_true]
          · cases h6 : env.post ep (env.genCaption video).full_caption <;> simp
          · simp
  · simp

theorem run_once_ledger_of_none (env : Env) (ledger : List Post) (testMode : Bool) (now : Dt)
    (h : cycle_publish env ledger testMode = none) :
    (run_once env ledger testMode now).ledger = ledger := by
  unfold run_once
  unfold cycle_publish at h
  cases h1 : env.videos.isEmpty <;>
    simp only [h1, Bool.false_eq_true, if_false, if_true] at h ⊢
  cases h2 : get_unposted_video ledger env.videos <;> simp only [h2] at h ⊢
  rename_i video
  cases h3 : env.download video <;> simp only [h3] at h ⊢
  rename_i vp
  cases h4 : env.process vp video.id <;> simp only [h4] at h ⊢
  rename_i ep
  cases h5 : testMode <;>
    simp only [h5, Bool.false_eq_true, if_false, if_true] at h ⊢
  cases h6 : env.post ep (env.genCaption video).full_caption <;> simp only [h6] at h ⊢
  exact Option.noConfusion h

theorem run_once_success_eq (env : Env) (ledger : List Post) (now : Dt) :
    (run_once env ledger false now).success = (cycle_publish env ledger false).isSome := by
  unfold run_once cycle_publish
  cases h1 : env.videos.isEmpty <;> simp only [h1, Bool.false_eq_true, if_false, if_true]
  · cases h2 : get_unposted_video ledger env.videos <;> simp only []
    · rfl
    · rename_i video
      cases h3 : env.download video <;> simp only []
      · rfl
      · rename_i vp
        cases h4 : env.process vp video.id <;> simp only []
        · rfl
        · rename_i ep
          cases h6 : env.post ep (env.genCaption video).full_caption <;> simp
  · rfl

theorem mem_insDesc {key : α → ℚ} {x z : α} {l : List α}
    (h : z ∈ insDesc key x l) : z = x ∨ z ∈ l := by
  induction l with
  | nil => simpa [insDesc] using h
  | cons y ys ih =>
    unfold insDesc at h
    by_cases hk : key x < key y
    · simp only [hk, if_true] at h
      rcases List.mem_cons.mp h with h1 | h1
      · exact Or.inr (List.mem_cons.mpr (Or.inl h1))
      · rcases ih h1 with h2 | h2
        · exact Or.inl h2
        · exact Or.inr (List.mem_cons.mpr (Or.inr h2))
    · simp only [hk, if_false] at h
      rcases List.mem_cons.mp h with h1 | h1
      · exact Or.inl h1
      · exact Or.inr h1

theorem insDesc_pairwise {key : α → ℚ} {x : α} {l : List α}
    (h : l.Pairwise (fun a b => key b ≤ key a)) :
    (insDesc key x l).Pairwise (fun a b => key b ≤ key a) := by
  induction l with
  | nil => simp [insDesc]
  | cons y ys ih =>
    rcases List.pairwise_cons.mp h with ⟨hy, hys⟩
    unfold insDesc
    by_cases hk : key x < key y
    · simp only [hk, if_true]
      refine List.pairwise_cons.mpr ⟨?_, ih hys⟩
      intro z hz
      rcases mem_insDesc hz with h1 | h1
      · exact h1 ▸ le_of_lt hk
      · exact hy z h1
    · simp only [hk, if_false]
      refine List.pairwise_cons.mpr ⟨?_, h⟩
      intro z hz
      rcases List.mem_cons.mp hz with h1 | h1
      · exact h1 ▸ le_of_not_lt hk
      · exact le_trans (hy z h1) (le_of_not_lt hk)

theorem sortByDesc_pairwise (key : α → ℚ) (l : List α) :
    (sortByDesc key l).Pairwise (fun a b => key b ≤ key a) := by
  induction l with
  | nil => simp [sortByDesc]
  | cons x xs ih => exact insDesc_pairwise ih

theorem filter_insDesc (key : α → ℚ) (x : α) (l : List α) (q : ℚ) :
    (insDesc key x l).filter (fun z => key z == q) =
      if key x == q then x :: l.filter (fun z => key z == q)
      else l.filter (fun z => key z == q) := by
  induction l with
  | nil =>
    simp only [insDesc, List.filter]
    by_cases hq : key x == q <;> simp [hq]
  | cons y ys ih =>
    unfold insDesc
    by_cases hk : key x < key y
    · simp only [hk, if_true, List.filter]
      by_cases hxq : key x == q
      · have hyq : (key y == q) = false := by
          refine beq_eq_false_iff_ne.mpr ?_
          have : q < key y := (beq_iff_eq.mp hxq) ▸ hk
          exact ne_of_gt this
        simp only [hxq, if_true, hyq, ih, List.filter]
      · have hxq' : (key x == q) = false := by simpa using hxq
        simp only [hxq', if_false] at ih ⊢
        simp [List.filter, ih]
    · simp only [hk, if_false, List.filter]
      by_cases hxq : key x == q
      · simp [List.filter, hxq]
      · have hxq' : (key x == q) = false := by simpa using hxq
        simp [List.filter, hxq']

theorem sortByDesc_filter (key : α → ℚ) (l : List α) (q : ℚ) :
    (sortByDesc key l).filter (fun z => key z == q) = l.filter (fun z => key z == q) := by
  induction l with
  | nil => rfl
  | cons x xs ih =>
    unfold sortByDesc
    rw [filter_insDesc]
    by_cases hxq : key x == q
    · simp [List.filter, hxq, ih]
    · have hxq' : (key x == q) = false := by simpa using hxq
      simp [List.filter, hxq', ih]

theorem updateMetricsRec_video_id (p : Post) (m : Metrics) (t : Dt) :
    (updateMetricsRec p m t).video_id = p.video_id := rfl

def stripTime (p : Post) : Post := { p with last_updated := ⟨0⟩ }

theorem updateMetricsRec_idem (p : Post) (m : Metrics) (t : Dt) :
    updateMetricsRec (updateMetricsRec p m t) m t = updateMetricsRec p m t := by
  unfold updateMetricsRec
  cases hl : m.likes <;> cases hc : m.comments <;> cases hv : m.views <;>
    simp only [Option.getD_none, Option.getD_some] <;>
    split <;> simp_all

theorem updateMetricsRec_strip (p : Post) (m : Metrics) (t1 t2 : Dt) :
    stripTime (updateMetricsRec (updateMetricsRec p m t1) m t2) =
      stripTime (updateMetricsRec p m t1) := by
  unfold updateMetricsRec stripTime
  cases hl : m.likes <;> cases hc : m.comments <;> cases hv : m.views <;>
    simp only [Option.getD_none, Option.getD_some] <;>
    split <;> simp_all

theorem update_post_metrics_twice (ledger : List Post) (vid : String) (m : Metrics) (t : Dt) :
    (update_post_metrics (update_post_metrics ledger vid m t).1 vid m t).1 =
      (update_post_metrics ledger vid m t).1 := by
  induction ledger with
  | nil => rfl
  | cons p ps ih =>
    unfold update_post_metrics
    by_cases h : p.video_id == vid
    · simp only [h, if_true]
      have h2 : ((updateMetricsRec p m t).video_id == vid) = true := by
        rw [updateMetricsRec_video_id]; exact h
      simp only [update_post_metrics, h, h2, if_true, updateMetricsRec_idem]
    · have h' : (p.video_id == vid) = false := by simpa using h
      simp only [h', Bool.false_eq_true, if_false]
      simp only [update_post_metrics, h', Bool.false_eq_true, if_false, ih]

theorem update_post_metrics_twice_strip (ledger : List Post) (vid : String) (m : Metrics)
    (t1 t2 : Dt) :
    ((update_post_metrics (update_post_metrics ledger vid m t1).1 vid m t2).1).map stripTime =
      ((update_post_metrics ledger vid m t1).1).map stripTime := by
  induction ledger with
  | nil => rfl
  | cons p ps ih =>
    unfold update_post_metrics
    by_cases h : p.video_id == vid
    · simp only [h, if_true]
      have h2 : ((updateMetricsRec p m t1).video_id == vid) = true := by
        rw [updateMetricsRec_video_id]; exact h
      simp only [update_post_metrics, h, h2, if_true, List.map_cons, updateMetricsRec_strip]
    · have h' : (p.video_id == vid) = false := by simpa using h
      simp only [h', Bool.false_eq_true, if_false]
      simp only [update_post_metrics, h', Bool.false_eq_true, if_false, List.map_cons]
      rw [ih]

theorem mem_add_job_self (jobs : List Job) (j : Job) : j ∈ add_job jobs j := by
  unfold add_job
  cases h : jobs.any (fun o => o.id == j.id)
  · simp [h]
  · simp only [h, if_true]
    obtain ⟨o, ho, ho2⟩ := List.any_eq_true.mp h
    exact List.mem_map.mpr ⟨o, ho, by simp [ho2]⟩

/-! Concrete fixtures used by scenario and counterexample theorems. -/

/-- A posts-table row with every field at its default. -/
def basePost : Post :=
  { video_id := "", instagram_media_id := "", instagram_code := "", instagram_url := "",
    youtube_title := "", youtube_url := "", caption := "", hashtags := [], category := none,
    posted_at := ⟨0⟩, likes := 0, comments := 0, views := 0, engagement_rate := 0,
    last_updated := ⟨0⟩ }

/-- A row posted inside the given hour with the given engagement rate. -/
def mkHourPost (vid : String) (hour : Nat) (er : ℚ) : Post :=
  { basePost with video_id := vid, posted_at := ⟨hour * 3600⟩, engagement_rate := er }

/-- Publish data for source video id 1. -/
def pd1 : PostData := ⟨"1", "m1", "c1", "u1", "A", "yu1", "capA", [], none⟩

/-- A ledger already holding a record for source id 1. -/
def L1 : List Post := (track_post [] pd1 ⟨0⟩).1

/-- A confirmed publish response. -/
def i0 : PostInfo := ⟨"m2", "c2", "u2"⟩

/-- A caption bundle. -/
def cd0 : CaptionData := ⟨"cap", ["#t"], "cap full"⟩

/-- Candidate videos A (source id 1) and B (source id 2). -/
def vA : Video := ⟨"1", "A", "urlA"⟩

/-- Candidate video B. -/
def vB : Video := ⟨"2", "B", "urlB"⟩

/-- An environment whose discovery finds nothing and collaborators fail. -/
def E0 : Env :=
  { videos := [], download := fun _ => none, process := fun _ _ => none,
    genCaption := fun _ => cd0, post := fun _ _ => none, category := none }

/-- Discovery returns only A; all downstream collaborators succeed. -/
def envA : Env :=
  { videos := [vA], download := fun _ => some "video.mp4",
    process := fun _ _ => some "edited.mp4", genCaption := fun _ => cd0,
    post := fun _ _ => some i0, category := none }

/-- Discovery returns A then B; all downstream collaborators succeed. -/
def env5 : Env := { envA with videos := [vA, vB] }

/-- C1: During a run_once cycle, Analytics.track_post runs exactly when the
publish call of that same cycle returned a confirmed post info object — the
record step is reached only through the branch holding that identifier —
and whenever the publish stage yields no confirmed identifier (discovery
empty, every candidate already posted, download/processing failed, test
mode, or the publish call returned None) the posts table after the cycle is
exactly the table before it. -/
theorem C1_record_iff_publish :
    ∀ (env : Env) (ledger : List Post) (testMode : Bool) (now : Dt),
    ((run_once env ledger testMode now).tracked = true ↔
      (cycle_publish env ledger testMode).isSome = true) ∧
    (cycle_publish env ledger testMode = none →
      (run_once env ledger testMode now).ledger = ledger) :=
  fun env ledger tm now =>
    ⟨run_once_tracked_iff env ledger tm now, run_once_ledger_of_none env ledger tm now⟩

/-- Witness for C1: a concrete cycle whose publish stage yields no
identifier leaves the concrete ledger unchanged. -/
theorem C1_record_iff_publish_witness : (run_once E0 [] false ⟨0⟩).ledger = [] :=
  (C1_record_iff_publish E0 [] false ⟨0⟩).2 rfl

/-- A media object only the reauthentication counterexample uses. -/
def i9 : PostInfo := ⟨"m9", "c9", "u9"⟩

/-- C2 counterexample: when the upload signals LoginRequired twice in a row
and then succeeds, post_reel re-establishes the session twice, retries the
upload twice and returns the confirmed post — it does not stop after one
re-authentication and one retry, and it does not end the cycle as an
error. -/
theorem C2_cex_two_reauths :
    post_reel true
      [PubOutcome.loginRequired, PubOutcome.loginRequired, PubOutcome.ok i9]
      [true, true] = ⟨some i9, 2, 2⟩ := rfl

/-- If every publish call of the environment returns None, the publish
stage of a cycle yields no identifier. -/
theorem cycle_publish_none_of_post_none (env : Env) (ledger : List Post)
    (h : ∀ a c, env.post a c = none) : cycle_publish env ledger false = none := by
  unfold cycle_publish
  cases h1 : env.videos.isEmpty <;> simp only [h1, Bool.false_eq_true, if_false, if_true]
  · cases h2 : get_unposted_video ledger env.videos
    case none => rfl
    case some video =>
      cases h3 : env.download video
      case none => simp only [h3]
      case some vp =>
        cases h4 : env.process vp video.id
        case none => simp only [h3, h4]
        case some ep =>
          simp only [h3, h4]
          exact h ep (env.genCaption video).full_caption

/-- Characterization of the recursive publish attempt: it returns a
confirmed media object exactly when a (possibly empty) leading chain of
LoginRequired outcomes, each answered by a successful re-login, ends in a
successful upload; in every other case — a failed or unavailable re-login,
a non-auth upload error, or LoginRequired at every scripted attempt — the
result is None. -/
theorem postAttempts_result_some_iff (outcomes : List PubOutcome) (logins : List Bool)
    (i : PostInfo) :
    (postAttempts outcomes logins).result = some i ↔
      ∃ k, outcomes.take k = List.replicate k PubOutcome.loginRequired ∧
        logins.take k = List.replicate k true ∧
        outcomes.get? k = some (PubOutcome.ok i) := by
  induction outcomes generalizing logins with
  | nil =>
    constructor
    · intro h
      exact absurd h (by simp [postAttempts])
    · rintro ⟨k, -, -, h3⟩
      cases k <;> simp [List.get?] at h3
  | cons o rest ih =>
    cases o with
    | ok j =>
      constructor
      · intro h
        have hj : j = i := by simpa [postAttempts] using h
        exact ⟨0, by simp, by simp, by simp [hj]⟩
      · rintro ⟨k, h1, h2, h3⟩
        cases k with
        | zero =>
          simp only [List.get?_cons_zero, Option.some.injEq, PubOutcome.ok.injEq] at h3
          simp [postAttempts, h3]
        | succ k' =>
          simp [List.take_succ_cons, List.replicate_succ] at h1
    | failed =>
      constructor
      · intro h
        exact absurd h (by simp [postAttempts])
      · rintro ⟨k, h1, h2, h3⟩
        cases k with
        | zero => simp at h3
        | succ k' => simp [List.take_succ_cons, List.replicate_succ] at h1
    | loginRequired =>
      cases logins with
      | nil =>
        constructor
        · intro h
          exact absurd h (by simp [postAttempts])
        · rintro ⟨k, h1, h2, h3⟩
          cases k with
          | zero => simp at h3
          | succ k' => simp [List.replicate_succ] at h2
      | cons b ls =>
        cases b with
        | false =>
          constructor
          · intro h
            exact absurd h (by simp [postAttempts])
          · rintro ⟨k, h1, h2, h3⟩
            cases k with
            | zero => simp at h3
            | succ k' => simp [List.take_succ_cons, List.replicate_succ] at h2
        | true =>
          constructor
          · intro h
            have h' : (postAttempts rest ls).result = some i := by
              simpa [postAttempts] using h
            obtain ⟨k, h1, h2, h3⟩ := (ih ls).mp h'
            refine ⟨k + 1, ?_, ?_, ?_⟩
            · simp [List.take_succ_cons, List.replicate_succ, h1]
            · simp [List.take_succ_cons, List.replicate_succ, h2]
            · simpa using h3
          · rintro ⟨k, h1, h2, h3⟩
            cases k with
            | zero => simp at h3
            | succ k' =>
              simp only [List.take_succ_cons, List.replicate_succ, List.cons.injEq] at h1 h2
              have h' := (ih ls).mpr ⟨k', h1.2, h2.2, by simpa using h3⟩
              simpa [postAttempts] using h'

/-- C2 amended: on LoginRequired the poster re-authenticates and retries
recursively without bound — a failed re-login aborts with None after that
single login call, while a successful re-login re-runs the whole publish
attempt, adding one more re-login and one more retry for every further
LoginRequired; the invocation returns a confirmed identifier exactly when
a leading chain of LoginRequired outcomes, each answered by a successful
re-login, ends in a successful upload (so it returns None only when a
re-login fails or is unavailable, a non-auth upload error occurs, or every
scripted attempt raises LoginRequired); and every cycle whose publish
stage yields no confirmed identifier ends as an error (run_once returns
False) with its ledger unchanged. -/
theorem C2_reauth_retry_unbounded :
    ∀ (rest outcomes : List PubOutcome) (ls logins : List Bool) (i : PostInfo)
      (env : Env) (ledger : List Post) (now : Dt),
    post_reel true (PubOutcome.loginRequired :: rest) (false :: ls) = ⟨none, 1, 0⟩ ∧
    post_reel true (PubOutcome.loginRequired :: rest) (true :: ls) =
      ⟨(postAttempts rest ls).result, (postAttempts rest ls).logins + 1,
        (postAttempts rest ls).retries + 1⟩ ∧
    ((post_reel true outcomes logins).result = some i ↔
      ∃ k, outcomes.take k = List.replicate k PubOutcome.loginRequired ∧
        logins.take k = List.replicate k true ∧
        outcomes.get? k = some (PubOutcome.ok i)) ∧
    (cycle_publish env ledger false = none →
      (run_once env ledger false now).success = false ∧
      (run_once env ledger false now).ledger = ledger) := by
  intro rest outcomes ls logins i env ledger now
  refine ⟨rfl, rfl, postAttempts_result_some_iff outcomes logins i,
    fun h => ⟨?_, run_once_ledger_of_none env ledger false now h⟩⟩
  rw [run_once_success_eq, h]
  rfl

/-- Witness for C2 amended: a concrete failed re-login aborts with one
login call and no retry, a concrete LoginRequired-then-success script
returns the confirmed post through the success characterization, and a
concrete cycle with no publish identifier ends as an error with its
ledger unchanged. -/
theorem C2_reauth_retry_unbounded_witness :
    post_reel true [PubOutcome.loginRequired] [false] = ⟨none, 1, 0⟩ ∧
    (post_reel true [PubOutcome.loginRequired, PubOutcome.ok i0] [true]).result = some i0 ∧
    (run_once E0 [] false ⟨0⟩).success = false ∧
    (run_once E0 [] false ⟨0⟩).ledger = [] :=
  ⟨(C2_reauth_retry_unbounded [] [PubOutcome.loginRequired, PubOutcome.ok i0]
      [] [true] i0 E0 [] ⟨0⟩).1,
   (C2_reauth_retry_unbounded [] [PubOutcome.loginRequired, PubOutcome.ok i0]
      [] [true] i0 E0 [] ⟨0⟩).2.2.1.mpr ⟨1, rfl, rfl, rfl⟩,
   ((C2_reauth_retry_unbounded [] [PubOutcome.loginRequired, PubOutcome.ok i0]
      [] [true] i0 E0 [] ⟨0⟩).2.2.2 rfl).1,
   ((C2_reauth_retry_unbounded [] [PubOutcome.loginRequired, PubOutcome.ok i0]
      [] [true] i0 E0 [] ⟨0⟩).2.2.2 rfl).2⟩

/-- C3 counterexample: with discovery returning only the already-published
candidate, the cycle is a deliberate no-op, yet run_once returns False and
the single-run entry point exits with the failure code 1 instead of the
success code the claim requires. -/
theorem C3_cex_noop_exits_failure :
    main_exit_code envA L1 false ⟨3600⟩ = 1 ∧
    get_unposted_video L1 envA.videos = none ∧ envA.videos ≠ [] := by decide

/-- C3 amended: the single-run exit code is 0 exactly when run_once
returned True, which in non-test mode happens exactly when a publish
happened; both deliberate no-op outcomes — discovery found nothing, or
every candidate was already published — exit with the failure code 1, the
same code as an aborted pipeline stage. -/
theorem C3_exit_codes :
    ∀ (env : Env) (ledger : List Post) (now : Dt),
    (main_exit_code env ledger false now = 0 ↔
      (run_once env ledger false now).success = true) ∧
    (env.videos = [] → main_exit_code env ledger false now = 1) ∧
    (env.videos ≠ [] → get_unposted_video ledger env.videos = none →
      main_exit_code env ledger false now = 1) ∧
    ((cycle_publish env ledger false).isSome = true →
      main_exit_code env ledger false now = 0) := by
  intro env ledger now
  refine ⟨?_, ?_, ?_, ?_⟩
  · unfold main_exit_code
    cases h : (run_once env ledger false now).success <;> simp [h]
  · intro h
    have he : env.videos.isEmpty = true := by simp [h]
    unfold main_exit_code run_once
    simp [he]
  · intro h hn
    have he : env.videos.isEmpty = false := by
      cases hv : env.videos
      · exact absurd hv h
      · simp [hv]
    unfold main_exit_code run_once
    simp [he, hn]
  · intro h
    unfold main_exit_code
    rw [run_once_success_eq, h]
    rfl

/-- Witness for C3 amended: the concrete all-already-published no-op exits
1, and a concrete successful publish exits 0. -/
theorem C3_exit_codes_witness :
    main_exit_code envA L1 false ⟨3600⟩ = 1 ∧ main_exit_code env5 L1 false ⟨3600⟩ = 0 :=
  ⟨(C3_exit_codes envA L1 ⟨3600⟩).2.2.1 (by decide) (by decide),
   (C3_exit_codes env5 L1 ⟨3600⟩).2.2.2 (by decide)⟩

/-- C4 counterexample: refreshing the ledger record for source 1 (whose
stored engagement_rate is 0) with likes=10, comments=5, views=0 stores
engagement_rate 0 — the recomputation is skipped because the code guards it
with views > 0 — while the claimed formula (likes + comments) divided by
max(views, 1) times 100 gives 1500, so the stored value is stale relative
to the freshly stored likes and comments. -/
theorem C4_cex_views_zero_stale :
    (update_post_metrics L1 "1" ⟨some 10, some 5, some 0⟩ ⟨3600⟩).1.map
        (fun p => p.engagement_rate) = [0] ∧
    ((10 : ℚ) + 5) / ((max 0 1 : Nat) : ℚ) * 100 = 1500 ∧ (0 : ℚ) ≠ 1500 := by
  refine ⟨?_, by norm_num, by norm_num⟩
  simp [update_post_metrics, updateMetricsRec, L1, track_post, pd1]

/-- C4 amended: a metrics refresh stores engagement_rate equal to
(likes + comments) / views * 100 whenever the refreshed views value is
positive (which agrees with the claimed max(views, 1) formula there), but
when the refreshed views value is 0 it leaves the previously stored rate in
place — possibly stale relative to the record's own stored likes, comments
and views; refreshing with likes=10, comments=5, views=100 stores 15. -/
theorem C4_engagement_recompute :
    ∀ (p : Post) (m : Metrics) (t : Dt),
    (0 < m.views.getD p.views →
      (updateMetricsRec p m t).engagement_rate =
        ((m.likes.getD p.likes : ℚ) + (m.comments.getD p.comments : ℚ)) /
          (m.views.getD p.views : ℚ) * 100) ∧
    (m.views.getD p.views = 0 →
      (updateMetricsRec p m t).engagement_rate = p.engagement_rate) ∧
    (update_post_metrics L1 "1" ⟨some 10, some 5, some 100⟩ ⟨3600⟩).1.map
        (fun p => p.engagement_rate) = [15] := by
  intro p m t
  refine ⟨?_, ?_, ?_⟩
  · intro h
    simp only [updateMetricsRec]
    rw [if_pos h]
  · intro h
    simp only [updateMetricsRec, h]
    rfl
  · norm_num [update_post_metrics, updateMetricsRec, L1, track_post, pd1]

/-- Witness for C4 amended at concrete metrics with positive and with
absent views. -/
theorem C4_engagement_recompute_witness :
    (updateMetricsRec basePost ⟨some 10, some 5, some 100⟩ ⟨1⟩).engagement_rate =
      ((10 : ℚ) + 5) / 100 * 100 ∧
    (updateMetricsRec basePost ⟨some 1, some 1, none⟩ ⟨1⟩).engagement_rate =
      basePost.engagement_rate :=
  ⟨(C4_engagement_recompute basePost ⟨some 10, some 5, some 100⟩ ⟨1⟩).1 (by decide),
   (C4_engagement_recompute basePost ⟨some 1, some 1, none⟩ ⟨1⟩).2.1 (by decide)⟩

/-- C5: the selection step returns exactly the first candidate of the
ranked list whose source id has no ledger record; concretely, with the
ledger already containing source id 1 and discovery returning A (id 1)
then B (id 2), the cycle selects and publishes B and the ledger ends with
exactly the two records 1 and 2. -/
theorem C5_select_first_unposted :
    ∀ (ledger : List Post) (videos : List Video),
    get_unposted_video ledger videos =
      videos.find? (fun v => (get_post ledger v.id).isNone) ∧
    (run_once env5 L1 false ⟨3600⟩).success = true ∧
    (run_once env5 L1 false ⟨3600⟩).tracked = true ∧
    (run_once env5 L1 false ⟨3600⟩).ledger.map (fun p => p.video_id) = ["1", "2"] := by
  intro ledger videos
  refine ⟨get_unposted_video_eq_find ledger videos, by decide, by decide, by decide⟩

/-- The metrics dict of the repeated-refresh scenarios. -/
def M9 : Metrics := ⟨some 10, some 5, some 100⟩

/-- C9 counterexample: refreshing the same record twice with the identical
metrics 10/5/100, at clock times 3600 and then 7200, leaves a stored state
different from the state after the first call — the row's last_updated
column records the second call's time. -/
theorem C9_cex_second_call_changes_state :
    (update_post_metrics (update_post_metrics L1 "1" M9 ⟨3600⟩).1 "1" M9 ⟨7200⟩).1 ≠
      (update_post_metrics L1 "1" M9 ⟨3600⟩).1 := by
  norm_num [update_post_metrics, updateMetricsRec, L1, track_post, pd1, M9]

/-- C9 amended: a repeated metrics refresh with identical likes, comments
and views is idempotent on every stored column except last_updated — the
second call leaves the table literally unchanged when its clock reading is
the same, and in general changes nothing but the last_updated timestamps. -/
theorem C9_update_metrics_idem :
    ∀ (ledger : List Post) (vid : String) (m : Metrics) (t t2 : Dt),
    (update_post_metrics (update_post_metrics ledger vid m t).1 vid m t).1 =
      (update_post_metrics ledger vid m t).1 ∧
    ((update_post_metrics (update_post_metrics ledger vid m t).1 vid m t2).1).map stripTime =
      ((update_post_metrics ledger vid m t).1).map stripTime :=
  fun ledger vid m t t2 =>
    ⟨update_post_metrics_twice ledger vid m t,
     update_post_metrics_twice_strip ledger vid m t t2⟩

/-- Ten qualifying records across four hours: hour 1 averages 20, hours 2
and 3 both average 10, hour 4 averages 5. -/
def L6 : List Post :=
  [mkHourPost "a1" 1 20, mkHourPost "a2" 1 20, mkHourPost "a3" 1 20,
   mkHourPost "b1" 2 10, mkHourPost "b2" 2 10, mkHourPost "b3" 2 10,
   mkHourPost "c1" 3 10, mkHourPost "c2" 3 10,
   mkHourPost "d1" 4 5, mkHourPost "d2" 4 5]

/-- C6 counterexample: with ten qualifying records whose hour means are
20, 10, 10, 5, the returned sequence is not strictly descending by mean —
hours 2 and 3 tie at mean 10 and both appear — and the qualifying hour 4
is dropped entirely because the code truncates to the top three hours. -/
theorem C6_cex_ties_and_truncation :
    get_best_posting_times L6 10 = ["01:00", "02:00", "03:00"] ∧
    sortByDesc Prod.snd (hourAvgs (L6.filter (fun p => decide (0 < p.engagement_rate)))) =
      [(1, 20), (2, 10), (3, 10), (4, 5)] ∧
    ¬ List.Chain' (fun a b => b.2 < a.2) [((1 : Nat), (20 : ℚ)), (2, 10), (3, 10), (4, 5)] ∧
    "04:00" ∉ get_best_posting_times L6 10 := by
  have h1 : get_best_posting_times L6 10 = ["01:00", "02:00", "03:00"] := by
    norm_num [get_best_posting_times, L6, mkHourPost, basePost, hourAvgs, hourGroups,
      addRate, sortByDesc, insDesc, Dt.hour, fmtHour]
    decide
  refine ⟨h1, ?_, ?_, ?_⟩
  · norm_num [L6, mkHourPost, basePost, hourAvgs, hourGroups, addRate, sortByDesc,
      insDesc, Dt.hour]
  · norm_num [List.chain'_cons]
  · rw [h1]; decide

/-- C6 amended: with fewer than minSample qualifying records (positive
engagement_rate) the query returns the empty sequence; otherwise it
returns the hour groups ordered descending by mean engagement — weakly,
hours with equal means staying in first-appearance order — truncated to
at most the top three hours and formatted as HH:00 strings. -/
theorem C6_best_hours :
    ∀ (ledger : List Post) (minSample : Nat),
    ((ledger.filter (fun p => decide (0 < p.engagement_rate))).length < minSample →
      get_best_posting_times ledger minSample = []) ∧
    (minSample ≤ (ledger.filter (fun p => decide (0 < p.engagement_rate))).length →
      get_best_posting_times ledger minSample =
        ((sortByDesc Prod.snd
            (hourAvgs (ledger.filter (fun p => decide (0 < p.engagement_rate))))).take 3).map
          (fun x => fmtHour x.1)) ∧
    (sortByDesc Prod.snd
        (hourAvgs (ledger.filter (fun p => decide (0 < p.engagement_rate))))).Pairwise
      (fun a b => b.2 ≤ a.2) ∧
    (get_best_posting_times ledger minSample).length ≤ 3 := by
  intro ledger minSample
  refine ⟨?_, ?_, sortByDesc_pairwise Prod.snd _, ?_⟩
  · intro h
    unfold get_best_posting_times
    rw [if_pos h]
  · intro h
    unfold get_best_posting_times
    rw [if_neg (not_lt.mpr h)]
  · simp only [get_best_posting_times]
    split
    · simp
    · simp only [List.length_map, List.length_take]
      omega

/-- Witness for C6 amended: the empty ledger is below the default sample
threshold and returns no hours, and with threshold 0 the concrete ledger
returns the formatted top three sorted hour means. -/
theorem C6_best_hours_witness :
    get_best_posting_times [] 10 = [] ∧
    get_best_posting_times L6 0 =
      ((sortByDesc Prod.snd
          (hourAvgs (L6.filter (fun p => decide (0 < p.engagement_rate))))).take 3).map
        (fun x => fmtHour x.1) :=
  ⟨(C6_best_hours [] 10).1 (by decide), (C6_best_hours L6 0).2.1 (Nat.zero_le _)⟩

/-- The older of the two tied records of the top-by-engagement scenario. -/
def p7a : Post := { basePost with video_id := "a", posted_at := ⟨100⟩, engagement_rate := 5 }

/-- The newer of the two tied records. -/
def p7b : Post := { basePost with video_id := "b", posted_at := ⟨200⟩, engagement_rate := 5 }

/-- C7 counterexample: two records share engagement_rate 5 and the older
one (posted_at 100) is returned before the newer one (posted_at 200) — the
query has no secondary sort key, so ties keep table order instead of the
claimed most-recent-published_at-first order. -/
theorem C7_cex_tie_keeps_table_order :
    get_best_performing_posts [p7a, p7b] 10 = [p7a, p7b] ∧
    p7a.engagement_rate = p7b.engagement_rate ∧
    p7a.posted_at.ts < p7b.posted_at.ts := by decide

/-- C7 amended: the top-by-engagement query returns records ordered
descending (weakly) by engagement_rate, and records with equal
engagement_rate appear in table (insertion) order — for every rate value,
filtering the sorted table for that rate yields exactly the table's own
rows with that rate in their original order — not most-recent first. -/
theorem C7_top_by_engagement :
    ∀ (ledger : List Post) (n : Nat) (q : ℚ),
    (get_best_performing_posts ledger n).Pairwise
      (fun a b => b.engagement_rate ≤ a.engagement_rate) ∧
    (sortByDesc (fun p => p.engagement_rate) ledger).filter
        (fun p => p.engagement_rate == q) =
      ledger.filter (fun p => p.engagement_rate == q) := by
  intro ledger n q
  refine ⟨?_, sortByDesc_filter _ ledger q⟩
  unfold get_best_performing_posts
  exact List.Pairwise.sublist (List.take_sublist _ _)
    (sortByDesc_pairwise (fun p => p.engagement_rate) ledger)

/-- C8 counterexample: on an empty table the statistics dict has zeros for
the count, sums and mean engagement rate, but the three per-post mean keys
are absent from the returned dict (modelled as none), not zero. -/
theorem C8_cex_empty_missing_means :
    get_statistics [] = ⟨0, 0, 0, 0, 0, none, none, none⟩ ∧
    (get_statistics []).avg_likes_per_post ≠ some 0 ∧
    (get_statistics []).avg_comments_per_post = none ∧
    (get_statistics []).avg_views_per_post = none := by decide

/-- C8 amended: the aggregate query never divides by the record count when
it is zero — with no records it returns zero count, zero sums and zero
mean engagement rate and omits the three per-post mean keys entirely;
with records present it divides each sum by the positive record count. -/
theorem C8_statistics :
    ∀ (ledger : List Post),
    get_statistics [] = ⟨0, 0, 0, 0, 0, none, none, none⟩ ∧
    (ledger ≠ [] →
      (get_statistics ledger).total_posts = ledger.length ∧
      (get_statistics ledger).total_likes = (ledger.map (fun p => p.likes)).sum ∧
      (get_statistics ledger).total_comments = (ledger.map (fun p => p.comments)).sum ∧
      (get_statistics ledger).total_views = (ledger.map (fun p => p.views)).sum ∧
      (get_statistics ledger).avg_engagement_rate =
        (ledger.map (fun p => p.engagement_rate)).sum / (ledger.length : ℚ) ∧
      (get_statistics ledger).avg_likes_per_post =
        some ((((ledger.map (fun p => p.likes)).sum : ℕ) : ℚ) / (ledger.length : ℚ)) ∧
      (get_statistics ledger).avg_comments_per_post =
        some ((((ledger.map (fun p => p.comments)).sum : ℕ) : ℚ) / (ledger.length : ℚ)) ∧
      (get_statistics ledger).avg_views_per_post =
        some ((((ledger.map (fun p => p.views)).sum : ℕ) : ℚ) / (ledger.length : ℚ)) ∧
      0 < ledger.length) := by
  intro ledger
  refine ⟨rfl, fun h => ?_⟩
  have he : ledger.isEmpty = false := by
    cases hv : ledger
    · exact absurd hv h
    · rfl
  simp only [get_statistics, he, Bool.false_eq_true, if_false]
  refine ⟨?_, ?_, ?_, ?_, ?_, ?_, ?_, ?_, List.length_pos.mpr h⟩ <;> trivial

/-- Witness for C8 amended at the empty table and a one-row table. -/
theorem C8_statistics_witness :
    get_statistics [] = ⟨0, 0, 0, 0, 0, none, none, none⟩ ∧
    (get_statistics [p7a]).total_posts = [p7a].length :=
  ⟨(C8_statistics []).1, ((C8_statistics [p7a]).2 (by decide)).1⟩

/-- C10: whenever the configured post-time string cannot be split on the
colon into exactly two int() values, the scheduler neither rejects nor
skips the entry — _parse_time silently returns the default (19, 0), and
schedule_posts still registers a daily job, daily_post_19_0, firing at
19:00 for that malformed entry. -/
theorem C10_malformed_time_defaults :
    ∀ (s : String) (jobs : List Job),
    parseTimeParts s = none →
    parse_time s = (19, 0) ∧
    (⟨"daily_post_19_0", 19, 0⟩ : Job) ∈ schedule_posts "daily" [s] jobs := by
  intro s jobs h
  have hp : parse_time s = (19, 0) := by
    unfold parse_time
    rw [h]
    rfl
  refine ⟨hp, ?_⟩
  unfold schedule_posts
  simp only [List.foldl, hp]
  have hs : ("daily_post_" ++ toString (19 : Int) ++ "_" ++ toString (0 : Int)) =
      "daily_post_19_0" := rfl
  have hd : (("daily" : String) == "daily") = true := rfl
  simp only [hs, hd, if_true]
  exact mem_add_job_self jobs _

/-- Witness for C10 at the concrete malformed entry "bad". -/
theorem C10_malformed_time_defaults_witness :
    parse_time "bad" = (19, 0) ∧
    (⟨"daily_post_19_0", 19, 0⟩ : Job) ∈ schedule_posts "daily" ["bad"] [] :=
  C10_malformed_time_defaults "bad" [] (by decide)
